import Mathlib

/-!
Verification of the MCP-Go protocol engine specification against a shallow
embedding of the library's JSON-RPC wire codec, request correlator,
streamable-HTTP transport and session subscription model.
-/

namespace MCPGo

/-- A structured JSON value, as produced by Go's `encoding/json` layer.
Numbers are modelled as integers, which covers every id and every value the
claims quantify over. -/
inductive Json where
  | null : Json
  | bool : Bool → Json
  | num : Int → Json
  | str : String → Json
  | arr : List Json → Json
  | obj : List (String × Json) → Json

/-- Field lookup in a JSON object's field list (first match wins). -/
def lookupField : List (String × Json) → String → Option Json
  | [], _ => none
  | (k, v) :: rest, key => if k = key then some v else lookupField rest key

/-- `j.getField k` returns the value of field `k` when `j` is an object. -/
def Json.getField : Json → String → Option Json
  | .obj fields, key => lookupField fields key
  | _, _ => none

/-- A JSON-RPC request id: integer or string, never null
(`mcp.RequestId`, built via `mcp.NewRequestId`). -/
inductive RequestId where
  | num : Int → RequestId
  | str : String → RequestId
deriving DecidableEq

/-- A JSON-RPC error object: code, message, optional data. -/
structure JSONRPCError where
  code : Int
  message : String
  data : Option Json


/-- A JSON-RPC request frame (`transport.JSONRPCRequest`). -/
structure JSONRPCRequest where
  jsonrpc : String
  id : RequestId
  method : String
  params : Option Json


/-- A JSON-RPC notification frame: a method, no id
(`mcp.JSONRPCNotification`). -/
structure JSONRPCNotification where
  jsonrpc : String
  method : String
  params : Option Json


/-- A JSON-RPC response frame (`transport.JSONRPCResponse`): echoed id and
one of result or error. -/
structure JSONRPCResponse where
  jsonrpc : String
  id : RequestId
  result : Option Json
  error : Option JSONRPCError


/-- The tagged union of wire frames (spec section 3: Message). -/
inductive JSONRPCMessage where
  | request : JSONRPCRequest → JSONRPCMessage
  | notification : JSONRPCNotification → JSONRPCMessage
  | response : JSONRPCResponse → JSONRPCMessage


/-- Encode a request id as a JSON value. -/
def encodeId : RequestId → Json
  | .num n => .num n
  | .str s => .str s

/-- Decode a JSON value as a request id; null and every other shape is a
disallowed id type and is rejected. -/
def decodeId : Json → Option RequestId
  | .num n => some (.num n)
  | .str s => some (.str s)
  | _ => none

/-- An optional field contributes to the encoded object only when present
(Go `omitempty`). -/
def optField (k : String) : Option Json → List (String × Json)
  | some v => [(k, v)]
  | none => []

/-- Encode an error object. -/
def encodeError (e : JSONRPCError) : Json :=
  .obj ([("code", .num e.code), ("message", .str e.message)] ++ optField "data" e.data)

/-- Decode an error object. -/
def decodeError (j : Json) : Option JSONRPCError :=
  match j.getField "code", j.getField "message" with
  | some (.num c), some (.str m) => some ⟨c, m, j.getField "data"⟩
  | _, _ => none

/-- Encode a request frame. -/
def encodeRequest (r : JSONRPCRequest) : Json :=
  .obj ([("jsonrpc", .str r.jsonrpc), ("id", encodeId r.id), ("method", .str r.method)]
    ++ optField "params" r.params)

/-- Encode a notification frame. -/
def encodeNotification (n : JSONRPCNotification) : Json :=
  .obj ([("jsonrpc", .str n.jsonrpc), ("method", .str n.method)] ++ optField "params" n.params)

/-- Encode a response frame. -/
def encodeResponse (r : JSONRPCResponse) : Json :=
  .obj ([("jsonrpc", .str r.jsonrpc), ("id", encodeId r.id)]
    ++ optField "result" r.result
    ++ (match r.error with
        | some e => [("error", encodeError e)]
        | none => []))

/-- Encode any wire frame. -/
def encodeMessage : JSONRPCMessage → Json
  | .request r => encodeRequest r
  | .notification n => encodeNotification n
  | .response r => encodeResponse r

/-- Decode and classify a wire frame (spec section 4.1): a frame with id and
method is a request, method without id a notification, id without method a
response; the protocol tag must be "2.0" and the id of an allowed type. -/
def decodeMessage (j : Json) : Option JSONRPCMessage :=
  match j with
  | .obj _ =>
    match j.getField "jsonrpc" with
    | some (.str v) =>
      if v = "2.0" then
        match j.getField "id", j.getField "method" with
        | some idj, some (.str m) =>
          (decodeId idj).map (fun i => .request ⟨"2.0", i, m, j.getField "params"⟩)
        | none, some (.str m) => some (.notification ⟨"2.0", m, j.getField "params"⟩)
        | some idj, none =>
          match decodeId idj with
          | some i =>
            match j.getField "result", j.getField "error" with
            | some res, none => some (.response ⟨"2.0", i, some res, none⟩)
            | none, some errj => (decodeError errj).map (fun e => .response ⟨"2.0", i, none, some e⟩)
            | _, _ => none
          | none => none
        | _, _ => none
      else none
    | _ => none
  | _ => none

/-- A response frame is well-formed when it carries the protocol tag and
exactly one of result and error. -/
def wfResponse (r : JSONRPCResponse) : Bool :=
  r.jsonrpc == "2.0" &&
    ((r.result.isSome && r.error.isNone) || (r.result.isNone && r.error.isSome))

/-- A wire frame is well-formed when it carries the protocol tag "2.0" and,
for a response, exactly one of result and error. -/
def wfMessage : JSONRPCMessage → Bool
  | .request r => r.jsonrpc == "2.0"
  | .notification n => n.jsonrpc == "2.0"
  | .response r => wfResponse r

/-! ## Server-sent-event stream layer

Modelled from the spec: the streamable-HTTP transport implementation
(`client/transport/streamable_http.go`) is not part of the source tree here,
only its tests; the SSE reader below follows spec section 4.2 — `data:`
events with an optional `event:` field, where an absent `event:` line is
treated as the default `message` event — and the tests' mock server output
format (`event: message` / `data: <json>` / blank line). -/

/-- One line of a `text/event-stream` body: an `event:` field line, a
`data:` line carrying a JSON payload, or a blank event-terminating line. -/
inductive SSELine where
  | event : String → SSELine
  | data : Json → SSELine
  | blank : SSELine

/-- A complete server-sent event: its event type and its data payload. -/
structure SSEEvent where
  eventType : String
  data : Json

/-- Accumulate SSE lines into events. An event is dispatched at a blank line
when it has data; an empty (absent) `event:` field defaults to "message".
An unterminated trailing event is not dispatched. -/
def collectSSE : List SSELine → String → Option Json → List SSEEvent
  | [], _, _ => []
  | .blank :: rest, ev, dat =>
    match dat with
    | some j => ⟨if ev = "" then "message" else ev, j⟩ :: collectSSE rest "" none
    | none => collectSSE rest "" none
  | .event name :: rest, _, dat => collectSSE rest name dat
  | .data j :: rest, ev, _ => collectSSE rest ev (some j)

/-- Parse a full `text/event-stream` body into its events. -/
def parseSSE (lines : List SSELine) : List SSEEvent := collectSSE lines "" none

/-- Decode a JSON value as a response frame; frames that are not responses
are rejected. -/
def decodeResponseJson (j : Json) : Option JSONRPCResponse :=
  match decodeMessage j with
  | some (.response r) => some r
  | _ => none

/-- Route the events of an SSE response body (spec sections 4.2 and 9):
each `message` event whose frame contains a `method` field is forwarded to
the notification handler; the first frame without a `method` field is the
terminal response of send-request, and reading stops there. Returns the
forwarded notification frames and the terminal response, if any. -/
def routeSSE : List SSEEvent → List Json × Option JSONRPCResponse
  | [] => ([], none)
  | e :: rest =>
    if e.eventType = "message" then
      match e.data.getField "method" with
      | some _ =>
        let res := routeSSE rest
        (e.data :: res.1, res.2)
      | none =>
        match decodeResponseJson e.data with
        | some r => ([], some r)
        | none => routeSSE rest
    else routeSSE rest

/-- The SSE lines the mock server emits for a list of frames:
`event: message`, `data: <frame>`, blank, for each frame in order. -/
def sseLinesOf (frames : List Json) : List SSELine :=
  (frames.map (fun j => [SSELine.event "message", SSELine.data j, SSELine.blank])).flatten

/-! ## Streamable-HTTP transport

Modelled from the spec: `client/transport/streamable_http.go` is absent from
the source tree (only `streamable_http_test.go` is present). The model
follows spec section 4.2 — POST each frame to a single endpoint; the reply
is a JSON document, a `text/event-stream` body, or 202 Accepted; the
`Mcp-Session-Id` header of the first successful initialize response is
echoed on every subsequent request; HTTP 404 surfaces as SessionLost — and
the behaviour the tests pin down (202 with a JSON body is parsed; a base
URL with a missing protocol scheme fails construction, as in Go's
`url.Parse`). The network is a parameter `httpDo`, so that the issued HTTP
request is observable; a cancelled context fails send-request before any
delivery. -/

/-- The body of an HTTP response: a JSON document, an SSE stream, or empty. -/
inductive HTTPBody where
  | json : Json → HTTPBody
  | sse : List SSELine → HTTPBody
  | empty : HTTPBody

/-- An HTTP request as issued by the transport. -/
structure HTTPRequest where
  url : String
  headers : List (String × String)
  body : Json

/-- An HTTP response as seen by the transport: status code, optional
`Mcp-Session-Id` header, content type, body. -/
structure HTTPResponse where
  status : Nat
  sessionHeader : Option String
  contentType : String
  body : HTTPBody

/-- The cancellation context handed to send-request. -/
structure Ctx where
  cancelled : Bool

/-- Errors surfaced by the streamable-HTTP transport. -/
inductive SendError where
  | cancelled : SendError
  | sessionLost : SendError
  | httpError : Nat → SendError
  | networkFailure : String → SendError
  | parseFailure : SendError
deriving DecidableEq

/-- Construction-time transport errors. -/
inductive TransportError where
  | invalidURL : TransportError
deriving DecidableEq

/-- The streamable-HTTP transport state: base URL, the session id captured
from the initialize response, and configured custom headers. -/
structure StreamableHTTP where
  serverURL : String
  sessionID : Option String
  headers : List (String × String)

/-- A base URL is missing its protocol scheme when it starts with a colon
(Go's `url.Parse` "missing protocol scheme" error, the shape of the test's
invalid URL `://invalid-url`). -/
def missingScheme (s : String) : Bool :=
  match s.data with
  | [] => false
  | c :: _ => c == ':'

/-- Construct a streamable-HTTP transport; a syntactically invalid base URL
(missing protocol scheme) fails at construction time. -/
def NewStreamableHTTP (baseURL : String) : Except TransportError StreamableHTTP :=
  if missingScheme baseURL then .error .invalidURL
  else .ok ⟨baseURL, none, []⟩

/-- The HTTP request send-request issues: the configured headers plus the
`Mcp-Session-Id` header whenever a session id has been captured. -/
def issuedRequest (t : StreamableHTTP) (req : JSONRPCRequest) : HTTPRequest :=
  { url := t.serverURL
    headers := [("Content-Type", "application/json")] ++ t.headers ++
      (match t.sessionID with
       | some s => [("Mcp-Session-Id", s)]
       | none => [])
    body := encodeRequest req }

/-- Capture the session id from a successful initialize response header. -/
def captureSession (t : StreamableHTTP) (req : JSONRPCRequest) (resp : HTTPResponse) :
    StreamableHTTP :=
  if req.method = "initialize" then
    match resp.sessionHeader with
    | some s => { t with sessionID := some s }
    | none => t
  else t

/-- send-request of the streamable-HTTP transport: fail on a cancelled
context; POST the encoded frame; 404 is SessionLost; a status other than
200 or 202 is an HTTP error; then a JSON body is decoded as the response,
and an SSE body is routed frame by frame — `method`-bearing frames to the
notification handler, the terminal frame as the response. Returns the
response, the forwarded notification frames, and the updated transport
state. -/
def sendRequest (t : StreamableHTTP) (ctx : Ctx)
    (httpDo : HTTPRequest → Except String HTTPResponse) (req : JSONRPCRequest) :
    Except SendError (JSONRPCResponse × List Json × StreamableHTTP) :=
  if ctx.cancelled then .error .cancelled
  else
    match httpDo (issuedRequest t req) with
    | .error msg => .error (.networkFailure msg)
    | .ok resp =>
      if resp.status = 404 then .error .sessionLost
      else if resp.status ≠ 200 ∧ resp.status ≠ 202 then .error (.httpError resp.status)
      else
        let t' := captureSession t req resp
        match resp.contentType, resp.body with
        | "application/json", .json j =>
          match decodeResponseJson j with
          | some r => .ok (r, [], t')
          | none => .error .parseFailure
        | "text/event-stream", .sse lines =>
          match routeSSE (parseSSE lines) with
          | (ns, some r) => .ok (r, ns, t')
          | (_, none) => .error .parseFailure
        | _, _ => .error .parseFailure

/-! ## Request correlator

Modelled from the spec: the correlator (spec section 4.3) is not in the
source tree. It owns a map from request id to a one-shot delivery slot;
an inbound response is matched to its slot by strict id equality, the slot
is removed on completion, and stale or duplicate responses are dropped
silently. -/

/-- Process a list of inbound responses against the outstanding slots:
a response whose id matches a live slot is delivered to that slot (which is
then removed); all others are dropped silently. Returns the deliveries as
(slot id, response) pairs in processing order. -/
def deliverAll : List RequestId → List JSONRPCResponse → List (RequestId × JSONRPCResponse)
  | _, [] => []
  | slots, r :: rest =>
    if r.id ∈ slots then (r.id, r) :: deliverAll (slots.erase r.id) rest
    else deliverAll slots rest

/-! ## Session subscriptions

Modelled from the spec: the session manager (spec section 4.7) is not in
the source tree. Subscriptions are a set of URIs per session; subscribe
adds, unsubscribe removes, duplicates are idempotent. -/

/-- A server-side session record: its id and its resource subscription set. -/
structure ServerSession where
  sessionId : String
  subscriptions : Finset String

/-- `resources/subscribe`: add a URI to the session's subscription set. -/
def subscribeURI (s : ServerSession) (uri : String) : ServerSession :=
  { s with subscriptions := insert uri s.subscriptions }

/-- `resources/unsubscribe`: remove a URI from the session's subscription
set. -/
def unsubscribeURI (s : ServerSession) (uri : String) : ServerSession :=
  { s with subscriptions := s.subscriptions.erase uri }

theorem decodeId_encodeId (i : RequestId) : decodeId (encodeId i) = some i := by
  cases i <;> rfl

theorem decodeError_encodeError (e : JSONRPCError) :
    decodeError (encodeError e) = some e := by
  obtain ⟨c, m, d⟩ := e
  cases d <;> simp [encodeError, decodeError, optField, Json.getField, lookupField]

theorem decode_encode_request (r : JSONRPCRequest) (h : r.jsonrpc = "2.0") :
    decodeMessage (encodeRequest r) = some (.request r) := by
  obtain ⟨jr, i, m, p⟩ := r
  simp only at h
  subst h
  cases p <;> cases i <;>
    simp [encodeRequest, decodeMessage, optField, Json.getField, lookupField,
      encodeId, decodeId]

theorem decode_encode_notification (n : JSONRPCNotification) (h : n.jsonrpc = "2.0") :
    decodeMessage (encodeNotification n) = some (.notification n) := by
  obtain ⟨jr, m, p⟩ := n
  simp only at h
  subst h
  cases p <;>
    simp [encodeNotification, decodeMessage, optField, Json.getField, lookupField]

theorem decode_encode_response (r : JSONRPCResponse) (h : wfResponse r = true) :
    decodeMessage (encodeResponse r) = some (.response r) := by
  obtain ⟨jr, i, res, err⟩ := r
  simp only [wfResponse, Bool.and_eq_true, beq_iff_eq, Bool.or_eq_true] at h
  obtain ⟨hj, hre⟩ := h
  subst hj
  cases res <;> cases err <;> cases i <;>
    simp_all [encodeResponse, decodeMessage, optField, Json.getField, lookupField,
      encodeId, decodeId, decodeError_encodeError]

theorem captureSession_noHeader (t : StreamableHTTP) (req : JSONRPCRequest)
    (resp : HTTPResponse) (h : resp.sessionHeader = none) :
    captureSession t req resp = t := by
  simp [captureSession, h]

theorem decodeResponseJson_encodeResponse (r : JSONRPCResponse) (h : wfResponse r = true) :
    decodeResponseJson (encodeResponse r) = some r := by
  simp [decodeResponseJson, decode_encode_response r h]

theorem encodeResponse_no_method (r : JSONRPCResponse) :
    (encodeResponse r).getField "method" = none := by
  obtain ⟨jr, i, res, err⟩ := r
  cases res <;> cases err <;>
    simp [encodeResponse, Json.getField, lookupField, optField]

theorem parseSSE_sseLinesOf (frames : List Json) :
    parseSSE (sseLinesOf frames) = frames.map (fun j => SSEEvent.mk "message" j) := by
  induction frames with
  | nil => rfl
  | cons j rest ih => simpa [sseLinesOf, parseSSE, collectSSE] using ih

theorem routeSSE_append (ns : List Json) (r : Json) (resp : JSONRPCResponse)
    (hns : ∀ f ∈ ns, (f.getField "method").isSome = true)
    (hrm : r.getField "method" = none) (hr : decodeResponseJson r = some resp) :
    routeSSE ((ns ++ [r]).map (fun j => SSEEvent.mk "message" j)) = (ns, some resp) := by
  induction ns with
  | nil => simp [routeSSE, hrm, hr]
  | cons n rest ih =>
    have hn := hns n (by simp)
    obtain ⟨v, hv⟩ := Option.isSome_iff_exists.mp hn
    have ih' := ih (fun f hf => hns f (by simp [hf]))
    simp only [List.map_append, List.map_cons, List.map_nil] at ih'
    simp [routeSSE, hv, ih']

theorem deliverAll_mem (slots : List RequestId) (msgs : List JSONRPCResponse)
    (p : RequestId × JSONRPCResponse) (hp : p ∈ deliverAll slots msgs) :
    p.2.id = p.1 ∧ p.1 ∈ slots := by
  induction msgs generalizing slots with
  | nil => simp [deliverAll] at hp
  | cons r rest ih =>
    by_cases h : r.id ∈ slots
    · simp only [deliverAll, if_pos h, List.mem_cons] at hp
      rcases hp with h1 | h1
      · subst h1; exact ⟨rfl, h⟩
      · obtain ⟨ha, hb⟩ := ih _ h1
        exact ⟨ha, List.mem_of_mem_erase hb⟩
    · simp only [deliverAll, if_neg h] at hp
      exact ih _ hp

theorem deliverAll_nodup (slots : List RequestId) (msgs : List JSONRPCResponse)
    (hs : slots.Nodup) : ((deliverAll slots msgs).map Prod.fst).Nodup := by
  induction msgs generalizing slots with
  | nil => simp [deliverAll]
  | cons r rest ih =>
    by_cases h : r.id ∈ slots
    · simp only [deliverAll, if_pos h, List.map_cons, List.nodup_cons]
      refine ⟨fun hmem => ?_, ih _ (hs.erase _)⟩
      obtain ⟨p, hp, hfst⟩ := List.mem_map.mp hmem
      have hb := (deliverAll_mem _ _ _ hp).2
      rw [hfst] at hb
      exact hs.not_mem_erase hb
    · simp only [deliverAll, if_neg h]
      exact ih _ hs

theorem deliverAll_eq_filter (slots : List RequestId) (msgs : List JSONRPCResponse)
    (h : (msgs.map JSONRPCResponse.id).Nodup) :
    deliverAll slots msgs
      = (msgs.filter (fun r => decide (r.id ∈ slots))).map (fun r => (r.id, r)) := by
  induction msgs generalizing slots with
  | nil => simp [deliverAll]
  | cons r rest ih =>
    simp only [List.map_cons, List.nodup_cons] at h
    obtain ⟨hr, hrest⟩ := h
    by_cases hmem : r.id ∈ slots
    · rw [deliverAll, if_pos hmem, List.filter_cons_of_pos (by simpa using hmem),
        List.map_cons, ih _ hrest]
      have hcongr : rest.filter (fun x => decide (x.id ∈ slots.erase r.id))
          = rest.filter (fun x => decide (x.id ∈ slots)) := by
        refine List.filter_congr fun x hx => ?_
        have hne : x.id ≠ r.id := by
          intro hEq
          exact hr (hEq ▸ List.mem_map_of_mem JSONRPCResponse.id hx)
        simp [List.mem_erase_of_ne hne]
      rw [hcongr]
    · rw [deliverAll, if_neg hmem, List.filter_cons_of_neg (by simpa using hmem)]
      exact ih _ hrest

/-! ## Concrete inputs used by the witnesses -/

def wTransport : StreamableHTTP := ⟨"http://localhost:8080/mcp", none, []⟩

def wSessTransport : StreamableHTTP := ⟨"http://localhost:8080/mcp", some "test-session-1", []⟩

def wCtxLive : Ctx := ⟨false⟩

def wReq : JSONRPCRequest := ⟨"2.0", .num 1, "debug/echo", none⟩

def wInitReq : JSONRPCRequest := ⟨"2.0", .num 0, "initialize", none⟩

def wInitResp : JSONRPCResponse := ⟨"2.0", .num 0, some (.str "initialized"), none⟩

def wSlots : List RequestId := [.num 100, .str "alpha"]

def wRespA : JSONRPCResponse := ⟨"2.0", .num 100, some (.str "ra"), none⟩

def wRespB : JSONRPCResponse := ⟨"2.0", .str "alpha", some (.str "rb"), none⟩

def wNotifFrame : Json := encodeNotification ⟨"2.0", "debug/test", some (.obj [("k", .num 1)])⟩

def wRespFrame : Json := encodeResponse ⟨"2.0", .num 1, some (.str "done"), none⟩

def wResp : JSONRPCResponse := ⟨"2.0", .num 1, some (.str "done"), none⟩

/-! ## The claims -/

/-- Claim C1: for every in-flight request id the correlator delivers at most
one response to the awaiting caller; every delivery pairs a slot with the
response whose id strictly equals the slot's request id; and when the
outstanding ids (integer or string) and the inbound response ids are
distinct, the deliveries are the same regardless of the order in which the
responses arrive. -/
theorem correlator_unique_delivery (slots : List RequestId)
    (msgs msgsPerm : List JSONRPCResponse) (hs : slots.Nodup)
    (hm : (msgs.map JSONRPCResponse.id).Nodup) (hp : msgs.Perm msgsPerm) :
    (∀ p ∈ deliverAll slots msgs, p.2.id = p.1) ∧
    ((deliverAll slots msgs).map Prod.fst).Nodup ∧
    (deliverAll slots msgsPerm).Perm (deliverAll slots msgs) := by
  refine ⟨fun p hp' => (deliverAll_mem _ _ _ hp').1, deliverAll_nodup _ _ hs, ?_⟩
  have hm' : (msgsPerm.map JSONRPCResponse.id).Nodup := ((hp.map _).nodup_iff).mp hm
  rw [deliverAll_eq_filter _ _ hm, deliverAll_eq_filter _ _ hm']
  exact ((hp.filter _).symm).map _

/-- Witness for C1: two outstanding slots, one integer id and one string id,
with the two responses arriving in swapped order. -/
theorem correlator_unique_delivery_witness :
    wSlots.Nodup ∧
    (([wRespB, wRespA].map JSONRPCResponse.id).Nodup) ∧
    List.Perm [wRespB, wRespA] [wRespA, wRespB] ∧
    ((∀ p ∈ deliverAll wSlots [wRespB, wRespA], p.2.id = p.1) ∧
      ((deliverAll wSlots [wRespB, wRespA]).map Prod.fst).Nodup ∧
      (deliverAll wSlots [wRespA, wRespB]).Perm (deliverAll wSlots [wRespB, wRespA])) :=
  ⟨by decide, by decide, List.Perm.swap _ _ _,
    correlator_unique_delivery wSlots [wRespB, wRespA] [wRespA, wRespB]
      (by decide) (by decide) (List.Perm.swap _ _ _)⟩

/-- Claim C2: when a request's response body is a text/event-stream carrying
several JSON-RPC frames, each frame containing a `method` field is forwarded
to the registered notification handler, and the frame without a `method`
field is routed to the requester's slot as the final response of
send-request. -/
theorem sse_stream_routes_frames (t : StreamableHTTP) (ctx : Ctx)
    (req : JSONRPCRequest) (ns : List Json) (r : Json) (resp : JSONRPCResponse)
    (hc : ctx.cancelled = false)
    (hns : ns.all (fun f => (f.getField "method").isSome) = true)
    (hrm : r.getField "method" = none)
    (hr : decodeResponseJson r = some resp) :
    routeSSE ((ns ++ [r]).map (fun j => SSEEvent.mk "message" j)) = (ns, some resp) ∧
    sendRequest t ctx
        (fun _ => .ok ⟨200, none, "text/event-stream", .sse (sseLinesOf (ns ++ [r]))⟩) req
      = .ok (resp, ns, t) := by
  have hns' : ∀ f ∈ ns, (f.getField "method").isSome = true := by
    simpa [List.all_eq_true] using hns
  have hroute := routeSSE_append ns r resp hns' hrm hr
  refine ⟨hroute, ?_⟩
  have hroute' := hroute
  simp only [List.map_append, List.map_cons, List.map_nil] at hroute'
  simp [sendRequest, hc, parseSSE_sseLinesOf, hroute', captureSession_noHeader]

/-- Witness for C2: one notification frame sharing the request's id followed
by the terminal response frame, delivered on one event stream. -/
theorem sse_stream_routes_frames_witness :
    wCtxLive.cancelled = false ∧
    ([wNotifFrame].all (fun f => (f.getField "method").isSome)) = true ∧
    wRespFrame.getField "method" = none ∧
    decodeResponseJson wRespFrame = some wResp ∧
    (routeSSE (([wNotifFrame] ++ [wRespFrame]).map (fun j => SSEEvent.mk "message" j))
        = ([wNotifFrame], some wResp) ∧
      sendRequest wTransport wCtxLive
          (fun _ => .ok ⟨200, none, "text/event-stream", .sse (sseLinesOf ([wNotifFrame] ++ [wRespFrame]))⟩)
          wReq
        = .ok (wResp, [wNotifFrame], wTransport)) :=
  ⟨rfl, rfl, rfl, rfl,
    sse_stream_routes_frames wTransport wCtxLive wReq [wNotifFrame] wRespFrame wResp
      rfl rfl rfl rfl⟩

/-- Claim C3: the session id carried in the Mcp-Session-Id header of the
first successful initialize response is captured by the transport and
attached to every subsequent request, and a request answered with HTTP 404
fails with SessionLost rather than returning a response. -/
theorem session_id_lifecycle (t0 t : StreamableHTTP) (ctx : Ctx)
    (initReq req : JSONRPCRequest) (s : String) (r : JSONRPCResponse)
    (hdr : Option String) (ctype : String) (body : HTTPBody)
    (hc : ctx.cancelled = false) (hm : initReq.method = "initialize")
    (hwf : wfResponse r = true) (hs : t.sessionID = some s) :
    sendRequest t0 ctx
        (fun _ => .ok ⟨202, some s, "application/json", .json (encodeResponse r)⟩) initReq
      = .ok (r, [], { t0 with sessionID := some s }) ∧
    ("Mcp-Session-Id", s) ∈ (issuedRequest t req).headers ∧
    sendRequest t ctx (fun _ => .ok ⟨404, hdr, ctype, body⟩) req = .error .sessionLost := by
  refine ⟨?_, ?_, ?_⟩
  · simp [sendRequest, hc, decodeResponseJson_encodeResponse r hwf, captureSession, hm]
  · simp [issuedRequest, hs]
  · simp [sendRequest, hc]

/-- Witness for C3: a successful initialize answered 202 with a session-id
header, a subsequent request on the captured session, and a 404 answer. -/
theorem session_id_lifecycle_witness :
    wCtxLive.cancelled = false ∧
    wInitReq.method = "initialize" ∧
    wfResponse wInitResp = true ∧
    wSessTransport.sessionID = some "test-session-1" ∧
    (sendRequest wTransport wCtxLive
        (fun _ => .ok ⟨202, some "test-session-1", "application/json", .json (encodeResponse wInitResp)⟩)
        wInitReq
      = .ok (wInitResp, [], { wTransport with sessionID := some "test-session-1" }) ∧
    ("Mcp-Session-Id", "test-session-1") ∈ (issuedRequest wSessTransport wReq).headers ∧
    sendRequest wSessTransport wCtxLive (fun _ => .ok ⟨404, none, "text/plain", .empty⟩) wReq
      = .error .sessionLost) :=
  ⟨rfl, rfl, rfl, rfl,
    session_id_lifecycle wTransport wSessTransport wCtxLive wInitReq wReq
      "test-session-1" wInitResp none "text/plain" .empty rfl rfl rfl rfl⟩

/-- Claim C4: an SSE `data:` line with no preceding `event:` line is
processed exactly as the default `message` event, and a JSON-RPC response
delivered that way is still returned by send-request. -/
theorem sse_default_event_type (t : StreamableHTTP) (ctx : Ctx)
    (req : JSONRPCRequest) (j : Json) (r : JSONRPCResponse)
    (hc : ctx.cancelled = false) (hwf : wfResponse r = true) :
    parseSSE [.data j, .blank] = parseSSE [.event "message", .data j, .blank] ∧
    sendRequest t ctx
        (fun _ => .ok ⟨200, none, "text/event-stream", .sse [.data (encodeResponse r), .blank]⟩)
        req
      = .ok (r, [], t) := by
  refine ⟨rfl, ?_⟩
  simp [sendRequest, hc, parseSSE, collectSSE, routeSSE, encodeResponse_no_method,
    decodeResponseJson_encodeResponse r hwf, captureSession_noHeader]

/-- Witness for C4: a response delivered as a lone `data:` event with no
`event:` field. -/
theorem sse_default_event_type_witness :
    wCtxLive.cancelled = false ∧
    wfResponse wResp = true ∧
    (parseSSE [.data wRespFrame, .blank]
        = parseSSE [.event "message", .data wRespFrame, .blank] ∧
      sendRequest wTransport wCtxLive
          (fun _ => .ok ⟨200, none, "text/event-stream", .sse [.data (encodeResponse wResp), .blank]⟩)
          wReq
        = .ok (wResp, [], wTransport)) :=
  ⟨rfl, rfl, sse_default_event_type wTransport wCtxLive wReq wRespFrame wResp rfl rfl⟩

/-- Claim C5: a send-request whose cancellation context is already cancelled
fails with the Cancelled error, and no response is delivered for that
request. -/
theorem cancelled_context_no_delivery (t : StreamableHTTP) (ctx : Ctx)
    (httpDo : HTTPRequest → Except String HTTPResponse) (req : JSONRPCRequest)
    (h : ctx.cancelled = true) :
    sendRequest t ctx httpDo req = .error .cancelled ∧
    ∀ out, sendRequest t ctx httpDo req ≠ .ok out := by
  have hcancel : sendRequest t ctx httpDo req = .error .cancelled := by
    simp [sendRequest, h]
  refine ⟨hcancel, fun out hout => ?_⟩
  rw [hcancel] at hout
  exact Except.noConfusion hout

/-- Witness for C5: a request issued under an already-cancelled context. -/
theorem cancelled_context_no_delivery_witness :
    (Ctx.mk true).cancelled = true ∧
    (sendRequest wTransport ⟨true⟩ (fun _ => .error "unused") wReq = .error .cancelled ∧
      ∀ out, sendRequest wTransport ⟨true⟩ (fun _ => .error "unused") wReq ≠ .ok out) :=
  ⟨rfl, cancelled_context_no_delivery wTransport ⟨true⟩ (fun _ => .error "unused") wReq rfl⟩

/-- Claim C6: a well-formed JSON-RPC error frame from the server is a
successful send-request at the transport level: the returned response
carries the frame's error code and message, its result is absent, and no
transport failure is raised. -/
theorem error_frame_returned_as_response (t : StreamableHTTP) (ctx : Ctx)
    (req : JSONRPCRequest) (i : RequestId) (e : JSONRPCError)
    (hc : ctx.cancelled = false) :
    sendRequest t ctx
        (fun _ => .ok ⟨200, none, "application/json", .json (encodeResponse ⟨"2.0", i, none, some e⟩)⟩)
        req
      = .ok (⟨"2.0", i, none, some e⟩, [], t) := by
  have hwf : wfResponse ⟨"2.0", i, none, some e⟩ = true := rfl
  simp [sendRequest, hc, decodeResponseJson_encodeResponse _ hwf, captureSession_noHeader]

/-- Witness for C6: the mock server's debug/echo_error_string reply, an
error frame with code -1 echoing the request id 100. -/
theorem error_frame_returned_as_response_witness :
    wCtxLive.cancelled = false ∧
    sendRequest wTransport wCtxLive
        (fun _ => .ok ⟨200, none, "application/json",
          .json (encodeResponse ⟨"2.0", .num 100, none, some ⟨-1, "boom", none⟩⟩)⟩)
        wReq
      = .ok (⟨"2.0", .num 100, none, some ⟨-1, "boom", none⟩⟩, [], wTransport) :=
  ⟨rfl, error_frame_returned_as_response wTransport wCtxLive wReq (.num 100) ⟨-1, "boom", none⟩ rfl⟩

/-- Claim C7: decoding the encoding of any well-formed JSON-RPC frame yields
the identical frame: protocol tag, id (integer and string ids kept as their
original type), method and the structured params/result value round-trip
unchanged. -/
theorem wire_codec_roundtrip (m : JSONRPCMessage) (h : wfMessage m = true) :
    decodeMessage (encodeMessage m) = some m := by
  cases m with
  | request r => exact decode_encode_request r (by simpa [wfMessage] using h)
  | notification n => exact decode_encode_notification n (by simpa [wfMessage] using h)
  | response r => exact decode_encode_response r (by simpa [wfMessage] using h)

/-- Witness for C7: a request frame with an integer id and structured
params. -/
theorem wire_codec_roundtrip_witness :
    wfMessage (.request ⟨"2.0", .num 1, "debug/echo",
        some (.obj [("string", .str "hello world"), ("array", .arr [.num 1, .num 2, .num 3])])⟩)
      = true ∧
    decodeMessage (encodeMessage (.request ⟨"2.0", .num 1, "debug/echo",
        some (.obj [("string", .str "hello world"), ("array", .arr [.num 1, .num 2, .num 3])])⟩))
      = some (.request ⟨"2.0", .num 1, "debug/echo",
        some (.obj [("string", .str "hello world"), ("array", .arr [.num 1, .num 2, .num 3])])⟩) :=
  ⟨rfl, wire_codec_roundtrip _ rfl⟩

/-- Claim C8: subscribe and unsubscribe are idempotent on the per-session
URI subscription set: calling subscribe(uri) twice leaves the set identical
to a single call, and likewise for unsubscribe(uri). -/
theorem subscription_idempotent (s : ServerSession) (uri : String) :
    subscribeURI (subscribeURI s uri) uri = subscribeURI s uri ∧
    unsubscribeURI (unsubscribeURI s uri) uri = unsubscribeURI s uri := by
  constructor <;>
    simp [subscribeURI, unsubscribeURI, Finset.insert_idem, Finset.erase_idem]

/-- Claim C9: HTTP 202 Accepted with a JSON body answering a request is
still parsed, and send-request returns the contained response; the 202
status on a request is not an empty acknowledgement. -/
theorem accepted_with_body_is_parsed (t : StreamableHTTP) (ctx : Ctx)
    (req : JSONRPCRequest) (r : JSONRPCResponse)
    (hc : ctx.cancelled = false) (hwf : wfResponse r = true) :
    sendRequest t ctx (fun _ => .ok ⟨202, none, "application/json", .json (encodeResponse r)⟩) req
      = .ok (r, [], t) := by
  simp [sendRequest, hc, decodeResponseJson_encodeResponse r hwf, captureSession_noHeader]

/-- Witness for C9: the mock server's initialize reply, HTTP 202 with a JSON
body. -/
theorem accepted_with_body_is_parsed_witness :
    wCtxLive.cancelled = false ∧
    wfResponse wInitResp = true ∧
    sendRequest wTransport wCtxLive
        (fun _ => .ok ⟨202, none, "application/json", .json (encodeResponse wInitResp)⟩) wInitReq
      = .ok (wInitResp, [], wTransport) :=
  ⟨rfl, rfl, accepted_with_body_is_parsed wTransport wCtxLive wInitReq wInitResp rfl rfl⟩

/-- Claim C10: constructing a streamable-HTTP transport with a syntactically
invalid base URL fails at construction time; construction with a well-formed
but unreachable URL succeeds; and a send-request whose underlying HTTP call
fails returns an error rather than a response. -/
theorem construction_url_validation (t : StreamableHTTP) (ctx : Ctx)
    (req : JSONRPCRequest) (msg : String) (hc : ctx.cancelled = false) :
    NewStreamableHTTP "://invalid-url" = .error .invalidURL ∧
    NewStreamableHTTP "http://localhost:1" = .ok ⟨"http://localhost:1", none, []⟩ ∧
    sendRequest t ctx (fun _ => .error msg) req = .error (.networkFailure msg) := by
  refine ⟨rfl, rfl, ?_⟩
  simp [sendRequest, hc]

/-- Witness for C10: the two URLs of the error tests and a connection
failure on the unreachable endpoint. -/
theorem construction_url_validation_witness :
    wCtxLive.cancelled = false ∧
    (NewStreamableHTTP "://invalid-url" = .error .invalidURL ∧
      NewStreamableHTTP "http://localhost:1" = .ok ⟨"http://localhost:1", none, []⟩ ∧
      sendRequest wTransport wCtxLive (fun _ => .error "connection refused") wReq
        = .error (.networkFailure "connection refused")) :=
  ⟨rfl, construction_url_validation wTransport wCtxLive wReq "connection refused" rfl⟩

end MCPGo
